import Mathlib

/-
Verification of the vSphere-template post-processor
(src/post-processor/vsphere-template/post-processor.go).

The Go code is shallowly embedded: external collaborators (the govmomi
client, the multistep runner of the packer SDK, the Go stdlib URL parser,
the wall clock) are modelled as explicit inputs, and the observable side
effects of a run (the settling sleep, the connection attempt, the steps
started, the session logout) are recorded as an event list.
-/

namespace VT

/-- Three-valued configuration flag of the packer SDK (config.Trilean). -/
inductive Trilean where
  | unset
  | yes
  | no
deriving DecidableEq, Repr

/-- The Config struct of post-processor.go (interpolation context omitted:
configuration decoding is out of scope). -/
structure Config where
  host : String
  insecure : Bool
  username : String
  password : String
  datacenter : String
  folder : String
  snapshotEnable : Bool
  snapshotName : String
  snapshotDescription : String
  reregisterVM : Trilean

/-- An upstream packer artifact: a producer identity (BuilderId) and the
string-keyed State lookup. In Go, State returns an interface value that may
be nil; a nil value compares unequal to every string, so the lookup is
modelled as an Option String. -/
structure Artifact where
  builderId : String
  state : String → Option String

/-- const BuilderIdESX = "mitchellh.vmware-esx" (post-processor.go). -/
def BuilderIdESX : String := "mitchellh.vmware-esx"

/-- Modelled from the spec: the vSphere post-processor producer identity
(vspherepost.BuilderId), declared in post-processor/vsphere of this
repository, which is not under src/. -/
def vspherepostBuilderId : String := "packer.post-processor.vsphere"

/-- Modelled from the spec: the vSphere builder producer identity
(vsphere.BuilderId), declared in builder/vsphere/common of this repository,
which is not under src/. -/
def vsphereBuilderId : String := "jetbrains.vsphere"

/-- const ArtifactConfFormat (post-processor.go). -/
def ArtifactConfFormat : String := "artifact.conf.format"

/-- const ArtifactConfKeepRegistered (post-processor.go). -/
def ArtifactConfKeepRegistered : String := "artifact.conf.keep_registered"

/-- const ArtifactConfSkipExport (post-processor.go). -/
def ArtifactConfSkipExport : String := "artifact.conf.skip_export"

/-- var builtins (post-processor.go): the allow-list of producer identities,
as (key, value) pairs of the Go map. -/
def builtins : List (String × String) :=
  [ (vspherepostBuilderId, "vmware"),
    (BuilderIdESX, "vmware"),
    (vsphereBuilderId, "vsphere"),
    ("packer.post-processor.artifice", "artifice") ]

/-- The Go map membership test `_, ok := builtins[id]`. -/
def builtinsHas (id : String) : Bool :=
  builtins.any (fun kv => kv.fst == id)

/-- Errors produced by PostProcess, one constructor per distinct
fmt.Errorf / errors.New site (plus the wrapped step error). -/
inductive GoError where
  | unsupportedArtifact (id : String)
  | conflictingExport
  | connectionError (msg : String)
  | stepError (msg : String)
deriving DecidableEq, Repr

/-- Errors appended to the MultiError by Configure. -/
inductive ConfigError where
  | mustBeSet (field : String)
  | invalidEndpoint
deriving DecidableEq, Repr

/-- The relevant parts of a parsed net/url URL value. -/
structure URLv where
  scheme : String
  host : String
  path : String
  username : String
  password : String
deriving DecidableEq, Repr

/-- The URL built by Configure: url.Parse of "https://host/sdk" followed by
sdk.User = url.UserPassword(username, password). -/
def sdkURL (host username password : String) : URLv :=
  ⟨"https", host, "/sdk", username, password⟩

/-- Result of Configure: the post-processor url field after the call (the
old value when the call leaves it unchanged) and the returned error, a
MultiError holding the accumulated ConfigErrors when non-nil. -/
structure ConfigureResult where
  url : Option URLv
  err : Option (List ConfigError)
deriving DecidableEq, Repr

/-- PostProcessor.Configure, after the config decode step (decoding and
interpolation are out of scope). `parseOk` stands for the outcome of
url.Parse on "https://host/sdk" (the Go stdlib, an external collaborator);
`old` is the url field before the call. The Go code iterates the vc map in
unspecified map order; the embedding fixes the order host, username,
password — every property proved about the error list is order-independent
(membership only). -/
def Configure (parseOk : Bool) (cfg : Config) (old : Option URLv) : ConfigureResult :=
  let errs : List ConfigError :=
    (if cfg.host = "" then [ConfigError.mustBeSet "host"] else [])
      ++ (if cfg.username = "" then [ConfigError.mustBeSet "username"] else [])
      ++ (if cfg.password = "" then [ConfigError.mustBeSet "password"] else [])
  if parseOk then
    ⟨some (sdkURL cfg.host cfg.username cfg.password),
      if errs.isEmpty then none else some errs⟩
  else
    ⟨old, some (errs ++ [ConfigError.invalidEndpoint])⟩

/-- Names of the four step kinds built by PostProcess. -/
inductive StepName where
  | chooseDatacenter
  | createFolder
  | createSnapshot
  | markAsTemplate
deriving DecidableEq, Repr

/-- The multistep.Step values PostProcess constructs, with the
configuration fields each constructor receives (NewStepCreateSnapshot and
NewStepMarkAsTemplate also receive the artifact and the post-processor;
their internals live in other files of the package, out of the claims). -/
inductive Step where
  | stepChooseDatacenter (datacenter : String)
  | stepCreateFolder (folder : String)
  | stepCreateSnapshot
  | stepMarkAsTemplate
deriving DecidableEq, Repr

/-- The kind of a step. -/
def stepName : Step → StepName
  | Step.stepChooseDatacenter _ => StepName.chooseDatacenter
  | Step.stepCreateFolder _ => StepName.createFolder
  | Step.stepCreateSnapshot => StepName.createSnapshot
  | Step.stepMarkAsTemplate => StepName.markAsTemplate

/-- The steps slice literal of PostProcess (post-processor.go lines
141-150), in source order. -/
def mkSteps (cfg : Config) : List Step :=
  [ Step.stepChooseDatacenter cfg.datacenter,
    Step.stepCreateFolder cfg.folder,
    Step.stepCreateSnapshot,
    Step.stepMarkAsTemplate ]

/-- What one step does when the runner reaches it: continue, or halt
(a halting step may have put an error into the state bag; a cancellation
halts without one). -/
inductive StepOutcome where
  | cont
  | haltWith (err : Option String)

/-- Observable side effects of a PostProcess run, in order. -/
inductive Event where
  | sleptSeconds (n : Nat)
  | connectAttempt
  | stepStarted (s : StepName)
  | logout
deriving DecidableEq, Repr

/-- The external collaborators of one PostProcess run: the govmomi
connection outcome, the behaviour of each step when run (indexed by
position in the step sequence), and whether the remote logout call fails. -/
structure Env where
  connect : Except String Unit
  stepOutcome : Nat → StepOutcome
  logoutFails : Bool

/-- Modelled from the spec: the multistep runner of the packer SDK
(an external collaborator, described in the StateBag / StepRunner section)
executes the steps strictly in list order, halts at the first step that
signals Halt, runs no step after it, and once an error key is set in the
bag no further step runs. Returns the steps actually started, in order,
and the error left in the state bag. -/
def runSteps (outcome : Nat → StepOutcome) : List Step → Nat → List Step × Option String
  | [], _ => ([], none)
  | st :: rest, i =>
    match outcome i with
    | StepOutcome.cont =>
      let r := runSteps outcome rest (i + 1)
      (st :: r.fst, r.snd)
    | StepOutcome.haltWith e => ([st], e)

/-- PostProcessor.Logout: issues the remote logout and yields its error,
which the caller discards (`_ = c.Logout(...)`). -/
def Logout (logoutFails : Bool) : Option String :=
  if logoutFails then some "logout failed" else none

/-- The value PostProcess returns to the pipeline — artifact, the two
booleans (keep artifact, force override), the error — together with the
event trace of the run. -/
structure PPResult where
  artifact : Option Artifact
  keep : Bool
  force : Bool
  err : Option GoError
  events : List Event

/-- The export-conflict test of PostProcess, exactly as the Go condition
`f != "" && k != "true" && s == "false"` reads on the three State lookups:
the values are interface values, so a nil (absent) value differs from every
string, which an Option String models. -/
def exportGateCond (artifact : Artifact) : Prop :=
  artifact.state ArtifactConfFormat ≠ some ""
    ∧ artifact.state ArtifactConfKeepRegistered ≠ some "true"
    ∧ artifact.state ArtifactConfSkipExport = some "false"

instance (a : Artifact) : Decidable (exportGateCond a) := by
  unfold exportGateCond
  infer_instance

/-- PostProcessor.PostProcess (post-processor.go lines 110-157). Checks the
builtins allow-list, then the export-conflict gate on the three State
lookups, then sleeps 10 seconds, connects, defers Logout, seeds the state
bag, runs the four steps, and returns according to the error key of the
bag. The deferred Logout runs on every path after a successful connect; its
error is discarded. -/
def PostProcess (env : Env) (cfg : Config) (artifact : Artifact) : PPResult :=
  if builtinsHas artifact.builderId = false then
    ⟨none, false, false, some (GoError.unsupportedArtifact artifact.builderId), []⟩
  else
    if exportGateCond artifact then
      ⟨none, false, false, some GoError.conflictingExport, []⟩
    else
      match env.connect with
      | Except.error msg =>
        ⟨none, false, false, some (GoError.connectionError msg),
          [Event.sleptSeconds 10, Event.connectAttempt]⟩
      | Except.ok _ =>
        let r := runSteps env.stepOutcome (mkSteps cfg) 0
        let evs := [Event.sleptSeconds 10, Event.connectAttempt]
          ++ r.fst.map (fun st => Event.stepStarted (stepName st))
          ++ [Event.logout]
        let _logoutErr := Logout env.logoutFails
        match r.snd with
        | some msg => ⟨none, false, false, some (GoError.stepError msg), evs⟩
        | none => ⟨some artifact, true, true, none, evs⟩

/-- The artifact validation of PostProcess as a predicate: the producer is
allow-listed and the export-conflict gate does not fire. Runs that pass
reach the sleep and the connection attempt. -/
def gatePassed (a : Artifact) : Bool :=
  builtinsHas a.builderId && !(decide (exportGateCond a))

/-- The step names started during a run, in order. -/
def startedSteps (evs : List Event) : List StepName :=
  evs.filterMap (fun e =>
    match e with
    | Event.stepStarted n => some n
    | _ => none)

/-- The event trace of the branch in which the connection succeeded. -/
def runTrace (executed : List Step) : List Event :=
  [Event.sleptSeconds 10, Event.connectAttempt]
    ++ executed.map (fun st => Event.stepStarted (stepName st))
    ++ [Event.logout]

/-- A concrete configuration used to instantiate theorems. -/
def cfgW : Config :=
  ⟨"vcenter.example.com", false, "user", "pass", "dc1", "a/b", false, "", "", Trilean.unset⟩

/-- A concrete configuration with empty host and username. -/
def cfgMissW : Config :=
  ⟨"", false, "", "pass", "", "", false, "", "", Trilean.unset⟩

/-- A concrete environment: connection succeeds, every step continues,
logout succeeds. -/
def envOkW : Env := ⟨Except.ok (), fun _ => StepOutcome.cont, false⟩

/-- A concrete environment in which the second step halts with an error in
the state bag. -/
def envHaltW : Env :=
  ⟨Except.ok (),
    fun i => if i = 1 then StepOutcome.haltWith (some "boom") else StepOutcome.cont,
    false⟩

/-- A concrete allow-listed artifact with no export metadata. -/
def artOkW : Artifact := ⟨BuilderIdESX, fun _ => none⟩

/-- A concrete artifact whose producer is not allow-listed. -/
def artBadW : Artifact := ⟨"bogus.builder", fun _ => none⟩

/-- A concrete allow-listed artifact whose export-format metadata is absent
and whose skip-export metadata is the string false. -/
def artCexW : Artifact :=
  ⟨"packer.post-processor.artifice",
    fun key => if key = ArtifactConfSkipExport then some "false" else none⟩

/-- A concrete allow-listed artifact with a non-empty export format and an
absent skip-export value. -/
def artSkipAbsentW : Artifact :=
  ⟨BuilderIdESX, fun key => if key = ArtifactConfFormat then some "ovf" else none⟩

/- ------------------------------------------------------------------ -/
/- Helper lemmas about the embedding.                                  -/
/- ------------------------------------------------------------------ -/

theorem postProcess_of_not_builtin (env : Env) (cfg : Config) (a : Artifact)
    (h : builtinsHas a.builderId = false) :
    PostProcess env cfg a
      = ⟨none, false, false, some (GoError.unsupportedArtifact a.builderId), []⟩ := by
  simp [PostProcess, h]

theorem postProcess_of_conflict (env : Env) (cfg : Config) (a : Artifact)
    (hb : builtinsHas a.builderId = true) (hc : exportGateCond a) :
    PostProcess env cfg a
      = ⟨none, false, false, some GoError.conflictingExport, []⟩ := by
  simp [PostProcess, hb, hc]

theorem postProcess_of_connect_error (env : Env) (cfg : Config) (a : Artifact)
    (msg : String) (hb : builtinsHas a.builderId = true)
    (hc : ¬ exportGateCond a) (he : env.connect = Except.error msg) :
    PostProcess env cfg a
      = ⟨none, false, false, some (GoError.connectionError msg),
          [Event.sleptSeconds 10, Event.connectAttempt]⟩ := by
  simp [PostProcess, hb, hc, he]

theorem postProcess_of_step_error (env : Env) (cfg : Config) (a : Artifact)
    (msg : String) (hb : builtinsHas a.builderId = true)
    (hc : ¬ exportGateCond a) (he : env.connect = Except.ok ())
    (hr : (runSteps env.stepOutcome (mkSteps cfg) 0).snd = some msg) :
    PostProcess env cfg a
      = ⟨none, false, false, some (GoError.stepError msg),
          runTrace (runSteps env.stepOutcome (mkSteps cfg) 0).fst⟩ := by
  simp [PostProcess, runTrace, hb, hc, he, hr]

theorem postProcess_of_success (env : Env) (cfg : Config) (a : Artifact)
    (hb : builtinsHas a.builderId = true)
    (hc : ¬ exportGateCond a) (he : env.connect = Except.ok ())
    (hr : (runSteps env.stepOutcome (mkSteps cfg) 0).snd = none) :
    PostProcess env cfg a
      = ⟨some a, true, true, none,
          runTrace (runSteps env.stepOutcome (mkSteps cfg) 0).fst⟩ := by
  simp [PostProcess, runTrace, hb, hc, he, hr]

theorem gatePassed_iff (a : Artifact) :
    gatePassed a = true ↔ builtinsHas a.builderId = true ∧ ¬ exportGateCond a := by
  simp [gatePassed]

theorem runSteps_executed_take (o : Nat → StepOutcome) (l : List Step) (i : Nat) :
    ∃ n, (runSteps o l i).fst = l.take n := by
  induction l generalizing i with
  | nil => exact ⟨0, rfl⟩
  | cons st rest ih =>
    cases ho : o i with
    | cont =>
      obtain ⟨n, hn⟩ := ih (i + 1)
      exact ⟨n + 1, by simp [runSteps, ho, hn]⟩
    | haltWith e => exact ⟨1, by simp [runSteps, ho]⟩

theorem runSteps_all_cont (o : Nat → StepOutcome) (h : ∀ j, o j = StepOutcome.cont)
    (l : List Step) (i : Nat) : runSteps o l i = (l, none) := by
  induction l generalizing i with
  | nil => rfl
  | cons st rest ih => simp [runSteps, h i, ih (i + 1)]

theorem startedSteps_runTrace (executed : List Step) :
    startedSteps (runTrace executed) = executed.map stepName := by
  induction executed with
  | nil => rfl
  | cons st rest ih =>
    simpa [runTrace, startedSteps] using ih

theorem count_logout_runTrace (executed : List Step) :
    (runTrace executed).count Event.logout = 1 := by
  induction executed with
  | nil => rfl
  | cons st rest ih =>
    simpa [runTrace, List.count_cons] using ih

/- ------------------------------------------------------------------ -/
/- Claims.                                                             -/
/- ------------------------------------------------------------------ -/

/-- C1: PostProcess has exactly two caller-visible outcomes. First
conjunct: every result is either the same artifact it was given with both
booleans true and no error, or a nil artifact with both booleans false and
a single error — never a partial-success mixture. Conjuncts two to five:
each validation, connection or step error returns a nil artifact, both
booleans false, and exactly the error that occurred (the unsupported
identity, the export conflict, the connection error with its message, or
the single error the failing step left in the state bag). Conjunct six:
no error is returned if and only if validation passed, the connection
succeeded and the step runner left no error in the state bag. Conjunct
seven: in that case the result is the original artifact with both booleans
true and no error. -/
theorem postProcess_atomic_outcomes (env : Env) (cfg : Config) (a : Artifact) :
    ((PostProcess env cfg a).artifact = some a ∧ (PostProcess env cfg a).keep = true
        ∧ (PostProcess env cfg a).force = true ∧ (PostProcess env cfg a).err = none
      ∨ (PostProcess env cfg a).artifact = none ∧ (PostProcess env cfg a).keep = false
        ∧ (PostProcess env cfg a).force = false
        ∧ ∃ e, (PostProcess env cfg a).err = some e)
    ∧ (builtinsHas a.builderId = false →
        PostProcess env cfg a
          = ⟨none, false, false, some (GoError.unsupportedArtifact a.builderId), []⟩)
    ∧ (builtinsHas a.builderId = true → exportGateCond a →
        PostProcess env cfg a
          = ⟨none, false, false, some GoError.conflictingExport, []⟩)
    ∧ (∀ msg, gatePassed a = true → env.connect = Except.error msg →
        PostProcess env cfg a
          = ⟨none, false, false, some (GoError.connectionError msg),
              [Event.sleptSeconds 10, Event.connectAttempt]⟩)
    ∧ (∀ msg, gatePassed a = true → env.connect = Except.ok () →
        (runSteps env.stepOutcome (mkSteps cfg) 0).snd = some msg →
        PostProcess env cfg a
          = ⟨none, false, false, some (GoError.stepError msg),
              runTrace (runSteps env.stepOutcome (mkSteps cfg) 0).fst⟩)
    ∧ ((PostProcess env cfg a).err = none ↔
        gatePassed a = true ∧ env.connect = Except.ok ()
          ∧ (runSteps env.stepOutcome (mkSteps cfg) 0).snd = none)
    ∧ (gatePassed a = true → env.connect = Except.ok () →
        (runSteps env.stepOutcome (mkSteps cfg) 0).snd = none →
        PostProcess env cfg a
          = ⟨some a, true, true, none,
              runTrace (runSteps env.stepOutcome (mkSteps cfg) 0).fst⟩) := by
  refine ⟨?_, ?_, ?_, ?_, ?_, ?_, ?_⟩
  · by_cases hb : builtinsHas a.builderId = true
    · by_cases hc : exportGateCond a
      · rw [postProcess_of_conflict env cfg a hb hc]
        exact Or.inr ⟨rfl, rfl, rfl, _, rfl⟩
      · cases he : env.connect with
        | error msg =>
          rw [postProcess_of_connect_error env cfg a msg hb hc he]
          exact Or.inr ⟨rfl, rfl, rfl, _, rfl⟩
        | ok u =>
          cases u
          cases hr : (runSteps env.stepOutcome (mkSteps cfg) 0).snd with
          | none =>
            rw [postProcess_of_success env cfg a hb hc he hr]
            exact Or.inl ⟨rfl, rfl, rfl, rfl⟩
          | some msg =>
            rw [postProcess_of_step_error env cfg a msg hb hc he hr]
            exact Or.inr ⟨rfl, rfl, rfl, _, rfl⟩
    · have hb2 : builtinsHas a.builderId = false := by simpa using hb
      rw [postProcess_of_not_builtin env cfg a hb2]
      exact Or.inr ⟨rfl, rfl, rfl, _, rfl⟩
  · intro h
    exact postProcess_of_not_builtin env cfg a h
  · intro hb hc
    exact postProcess_of_conflict env cfg a hb hc
  · intro msg hg he
    obtain ⟨hb, hc⟩ := (gatePassed_iff a).mp hg
    exact postProcess_of_connect_error env cfg a msg hb hc he
  · intro msg hg he hr
    obtain ⟨hb, hc⟩ := (gatePassed_iff a).mp hg
    exact postProcess_of_step_error env cfg a msg hb hc he hr
  · constructor
    · intro hnone
      by_cases hb : builtinsHas a.builderId = true
      · by_cases hc : exportGateCond a
        · rw [postProcess_of_conflict env cfg a hb hc] at hnone
          simp at hnone
        · cases he : env.connect with
          | error msg =>
            rw [postProcess_of_connect_error env cfg a msg hb hc he] at hnone
            simp at hnone
          | ok u =>
            cases u
            cases hr : (runSteps env.stepOutcome (mkSteps cfg) 0).snd with
            | none => exact ⟨(gatePassed_iff a).mpr ⟨hb, hc⟩, rfl, rfl⟩
            | some msg =>
              rw [postProcess_of_step_error env cfg a msg hb hc he hr] at hnone
              simp at hnone
      · have hb2 : builtinsHas a.builderId = false := by simpa using hb
        rw [postProcess_of_not_builtin env cfg a hb2] at hnone
        simp at hnone
    · rintro ⟨hg, he, hr⟩
      obtain ⟨hb, hc⟩ := (gatePassed_iff a).mp hg
      rw [postProcess_of_success env cfg a hb hc he hr]
  · intro hg he hr
    obtain ⟨hb, hc⟩ := (gatePassed_iff a).mp hg
    exact postProcess_of_success env cfg a hb hc he hr

/-- Witness for C1: the all-successful concrete run returns the original
artifact with both booleans true and no error, and a concrete run whose
second step halts with an error in the bag returns a nil artifact, both
booleans false, and exactly that step error. -/
theorem postProcess_atomic_outcomes_witness :
    PostProcess envOkW cfgW artOkW
      = ⟨some artOkW, true, true, none,
          runTrace (runSteps envOkW.stepOutcome (mkSteps cfgW) 0).fst⟩
    ∧ PostProcess envHaltW cfgW artOkW
      = ⟨none, false, false, some (GoError.stepError "boom"),
          runTrace (runSteps envHaltW.stepOutcome (mkSteps cfgW) 0).fst⟩ :=
  ⟨(postProcess_atomic_outcomes envOkW cfgW artOkW).2.2.2.2.2.2 (by decide) rfl rfl,
    (postProcess_atomic_outcomes envHaltW cfgW artOkW).2.2.2.2.1 "boom"
      (by decide) rfl rfl⟩

/-- C2: an artifact whose producer identity is not in the builtins
allow-list makes PostProcess fail with the unsupported-artifact error
naming that identity, with no settling delay waited, no connection
attempted and no step run (the event trace is empty). -/
theorem postProcess_unsupported_artifact (env : Env) (cfg : Config) (a : Artifact)
    (h : builtinsHas a.builderId = false) :
    PostProcess env cfg a
      = ⟨none, false, false, some (GoError.unsupportedArtifact a.builderId), []⟩ :=
  postProcess_of_not_builtin env cfg a h

/-- Witness for C2: a concrete artifact with producer identity
bogus.builder is rejected with the unsupported-artifact error and an empty
event trace. -/
theorem postProcess_unsupported_artifact_witness :
    PostProcess envOkW cfgW artBadW
      = ⟨none, false, false, some (GoError.unsupportedArtifact "bogus.builder"), []⟩ :=
  postProcess_unsupported_artifact envOkW cfgW artBadW (by decide)

/-- C3 counterexample: an allow-listed artifact whose export-format
metadata is absent — hence not a non-empty string, so the claim predicts
the conflict check passes — with keep-registered absent and skip-export
equal to the string false; PostProcess nonetheless returns the
conflicting-export error, because the Go comparison f != "" is true for a
nil interface value. -/
theorem exportGate_claim_cex :
    builtinsHas artCexW.builderId = true
    ∧ artCexW.state ArtifactConfFormat = none
    ∧ artCexW.state ArtifactConfKeepRegistered = none
    ∧ artCexW.state ArtifactConfSkipExport = some "false"
    ∧ PostProcess envOkW cfgW artCexW
        = ⟨none, false, false, some GoError.conflictingExport, []⟩ :=
  ⟨by decide, by decide, by decide, by decide, by rfl⟩

/-- C3 amended: for every allow-listed artifact, PostProcess fails with the
conflicting-export error exactly when the code's condition holds — the
export-format metadata is anything other than the empty string (a non-empty
string, or absent), keep-registered is not the string true, and skip-export
equals the string false; when any part of that condition fails, the
conflict error is not returned. -/
theorem exportGate_amended (env : Env) (cfg : Config) (a : Artifact)
    (hb : builtinsHas a.builderId = true) :
    ((a.state ArtifactConfFormat ≠ some ""
        ∧ a.state ArtifactConfKeepRegistered ≠ some "true"
        ∧ a.state ArtifactConfSkipExport = some "false") →
      PostProcess env cfg a
        = ⟨none, false, false, some GoError.conflictingExport, []⟩)
    ∧ (¬ (a.state ArtifactConfFormat ≠ some ""
        ∧ a.state ArtifactConfKeepRegistered ≠ some "true"
        ∧ a.state ArtifactConfSkipExport = some "false") →
      (PostProcess env cfg a).err ≠ some GoError.conflictingExport) := by
  constructor
  · intro hc
    exact postProcess_of_conflict env cfg a hb hc
  · intro hc
    cases he : env.connect with
    | error msg =>
      rw [postProcess_of_connect_error env cfg a msg hb hc he]
      simp
    | ok u =>
      cases u
      cases hr : (runSteps env.stepOutcome (mkSteps cfg) 0).snd with
      | none =>
        rw [postProcess_of_success env cfg a hb hc he hr]
        simp
      | some msg =>
        rw [postProcess_of_step_error env cfg a msg hb hc he hr]
        simp

/-- Witness for C3 amended: the concrete artifact of the counterexample
satisfies the code's condition and produces the conflict error. -/
theorem exportGate_amended_witness :
    PostProcess envOkW cfgW artCexW
      = ⟨none, false, false, some GoError.conflictingExport, []⟩ :=
  (exportGate_amended envOkW cfgW artCexW (by decide)).1 (by decide)

/-- C4: Logout is invoked exactly once whenever the artifact passed
validation and the connection succeeded — on the success path and on every
step-failure or cancellation path — and exactly zero times when validation
rejected the artifact or the connection itself failed. -/
theorem logout_exactly_once (env : Env) (cfg : Config) (a : Artifact) :
    (PostProcess env cfg a).events.count Event.logout
      = if gatePassed a = true then
          (match env.connect with
            | Except.ok _ => 1
            | Except.error _ => 0)
        else 0 := by
  by_cases hb : builtinsHas a.builderId = true
  · by_cases hc : exportGateCond a
    · have hg : gatePassed a = false := by simp [gatePassed, hc]
      rw [postProcess_of_conflict env cfg a hb hc]
      simp [hg]
    · have hg : gatePassed a = true := (gatePassed_iff a).mpr ⟨hb, hc⟩
      cases he : env.connect with
      | error msg =>
        rw [postProcess_of_connect_error env cfg a msg hb hc he]
        simp [hg]
      | ok u =>
        cases u
        cases hr : (runSteps env.stepOutcome (mkSteps cfg) 0).snd with
        | none =>
          rw [postProcess_of_success env cfg a hb hc he hr]
          simp [hg, count_logout_runTrace]
        | some msg =>
          rw [postProcess_of_step_error env cfg a msg hb hc he hr]
          simp [hg, count_logout_runTrace]
  · have hb2 : builtinsHas a.builderId = false := by simpa using hb
    have hg : gatePassed a = false := by simp [gatePassed, hb2]
    rw [postProcess_of_not_builtin env cfg a hb2]
    simp [hg]

/-- C5: PostProcess constructs exactly the four steps ChooseDatacenter,
CreateFolder, CreateSnapshot, MarkAsTemplate in that order; the sequence of
steps the runner starts is always an initial segment of that fixed order
(never reordered), and when no step halts all four run in that order. -/
theorem steps_fixed_order (env : Env) (cfg : Config) (a : Artifact) :
    mkSteps cfg
      = [Step.stepChooseDatacenter cfg.datacenter, Step.stepCreateFolder cfg.folder,
          Step.stepCreateSnapshot, Step.stepMarkAsTemplate]
    ∧ (∃ n, startedSteps (PostProcess env cfg a).events
        = [StepName.chooseDatacenter, StepName.createFolder,
            StepName.createSnapshot, StepName.markAsTemplate].take n)
    ∧ ((gatePassed a = true ∧ env.connect = Except.ok ()
          ∧ ∀ j, env.stepOutcome j = StepOutcome.cont) →
        startedSteps (PostProcess env cfg a).events
          = [StepName.chooseDatacenter, StepName.createFolder,
              StepName.createSnapshot, StepName.markAsTemplate]) := by
  refine ⟨rfl, ?_, ?_⟩
  · by_cases hb : builtinsHas a.builderId = true
    · by_cases hc : exportGateCond a
      · rw [postProcess_of_conflict env cfg a hb hc]
        exact ⟨0, rfl⟩
      · cases he : env.connect with
        | error msg =>
          rw [postProcess_of_connect_error env cfg a msg hb hc he]
          exact ⟨0, rfl⟩
        | ok u =>
          cases u
          obtain ⟨n, hn⟩ := runSteps_executed_take env.stepOutcome (mkSteps cfg) 0
          cases hr : (runSteps env.stepOutcome (mkSteps cfg) 0).snd with
          | none =>
            rw [postProcess_of_success env cfg a hb hc he hr]
            refine ⟨n, ?_⟩
            rw [startedSteps_runTrace, hn, List.map_take]
            rfl
          | some msg =>
            rw [postProcess_of_step_error env cfg a msg hb hc he hr]
            refine ⟨n, ?_⟩
            rw [startedSteps_runTrace, hn, List.map_take]
            rfl
    · have hb2 : builtinsHas a.builderId = false := by simpa using hb
      rw [postProcess_of_not_builtin env cfg a hb2]
      exact ⟨0, rfl⟩
  · rintro ⟨hg, he, hall⟩
    obtain ⟨hb, hc⟩ := (gatePassed_iff a).mp hg
    have hrun := runSteps_all_cont env.stepOutcome hall (mkSteps cfg) 0
    have hr : (runSteps env.stepOutcome (mkSteps cfg) 0).snd = none := by
      rw [hrun]
    rw [postProcess_of_success env cfg a hb hc he hr, startedSteps_runTrace, hrun]
    rfl

/-- Witness for C5: in the all-successful concrete run all four steps start
in the fixed order. -/
theorem steps_fixed_order_witness :
    startedSteps (PostProcess envOkW cfgW artOkW).events
      = [StepName.chooseDatacenter, StepName.createFolder,
          StepName.createSnapshot, StepName.markAsTemplate] :=
  (steps_fixed_order envOkW cfgW artOkW).2.2 ⟨by decide, rfl, fun _ => rfl⟩

/-- C6: every invocation that passes artifact validation waits the fixed
10-second settling delay and then attempts the connection, before any step
runs; an invocation rejected by validation produces no event at all — no
delay, no connection. -/
theorem settle_delay_gated (env : Env) (cfg : Config) (a : Artifact) :
    (gatePassed a = true →
      ∃ rest, (PostProcess env cfg a).events
        = Event.sleptSeconds 10 :: Event.connectAttempt :: rest)
    ∧ (gatePassed a = false → (PostProcess env cfg a).events = []) := by
  constructor
  · intro hg
    obtain ⟨hb, hc⟩ := (gatePassed_iff a).mp hg
    cases he : env.connect with
    | error msg =>
      exact ⟨[], by rw [postProcess_of_connect_error env cfg a msg hb hc he]⟩
    | ok u =>
      cases u
      cases hr : (runSteps env.stepOutcome (mkSteps cfg) 0).snd with
      | none =>
        refine ⟨(runSteps env.stepOutcome (mkSteps cfg) 0).fst.map
          (fun st => Event.stepStarted (stepName st)) ++ [Event.logout], ?_⟩
        rw [postProcess_of_success env cfg a hb hc he hr]
        rfl
      | some msg =>
        refine ⟨(runSteps env.stepOutcome (mkSteps cfg) 0).fst.map
          (fun st => Event.stepStarted (stepName st)) ++ [Event.logout], ?_⟩
        rw [postProcess_of_step_error env cfg a msg hb hc he hr]
        rfl
  · intro hg
    by_cases hb : builtinsHas a.builderId = true
    · by_cases hc : exportGateCond a
      · rw [postProcess_of_conflict env cfg a hb hc]
      · exact absurd ((gatePassed_iff a).mpr ⟨hb, hc⟩) (by simp [hg])
    · have hb2 : builtinsHas a.builderId = false := by simpa using hb
      rw [postProcess_of_not_builtin env cfg a hb2]

/-- Witness for C6: the all-successful concrete run sleeps 10 seconds and
then attempts the connection; a rejected concrete artifact produces no
event. -/
theorem settle_delay_gated_witness :
    (∃ rest, (PostProcess envOkW cfgW artOkW).events
      = Event.sleptSeconds 10 :: Event.connectAttempt :: rest)
    ∧ (PostProcess envOkW cfgW artBadW).events = [] :=
  ⟨(settle_delay_gated envOkW cfgW artOkW).1 (by decide),
    (settle_delay_gated envOkW cfgW artBadW).2 (by decide)⟩

/-- C7: whenever at least one of host, username, password is empty,
Configure returns a MultiError whose list contains a must-be-set error for
exactly the missing fields — all of them together, not just the first —
whatever the url parse outcome; Configure itself attempts no connection
(the embedding of Configure has no connection collaborator). -/
theorem configure_aggregates_missing_fields (parseOk : Bool) (cfg : Config)
    (old : Option URLv)
    (hmiss : cfg.host = "" ∨ cfg.username = "" ∨ cfg.password = "") :
    ∃ l, (Configure parseOk cfg old).err = some l
      ∧ (ConfigError.mustBeSet "host" ∈ l ↔ cfg.host = "")
      ∧ (ConfigError.mustBeSet "username" ∈ l ↔ cfg.username = "")
      ∧ (ConfigError.mustBeSet "password" ∈ l ↔ cfg.password = "") := by
  by_cases h1 : cfg.host = "" <;> by_cases h2 : cfg.username = "" <;>
    by_cases h3 : cfg.password = "" <;>
      cases parseOk <;>
        simp [Configure, h1, h2, h3]
  all_goals
    first
      | decide
      | exact absurd hmiss (by simp [h1, h2, h3])

/-- Witness for C7: with empty host and username and non-empty password,
the returned error list reports host and username together. -/
theorem configure_aggregates_missing_fields_witness :
    ∃ l, (Configure true cfgMissW none).err = some l
      ∧ (ConfigError.mustBeSet "host" ∈ l ↔ cfgMissW.host = "")
      ∧ (ConfigError.mustBeSet "username" ∈ l ↔ cfgMissW.username = "")
      ∧ (ConfigError.mustBeSet "password" ∈ l ↔ cfgMissW.password = "") :=
  configure_aggregates_missing_fields true cfgMissW none (Or.inl rfl)

/-- C8: the value PostProcess returns — artifact, both booleans, error, and
even the event trace — does not depend on whether the remote logout
succeeds or fails; the logout outcome is discarded. -/
theorem logout_failure_ignored (cn : Except String Unit) (so : Nat → StepOutcome)
    (b1 b2 : Bool) (cfg : Config) (a : Artifact) :
    PostProcess ⟨cn, so, b1⟩ cfg a = PostProcess ⟨cn, so, b2⟩ cfg a := rfl

/-- C9: when the host parses, Configure overwrites the stored url with
https scheme, the host, the /sdk path and the username and password as
userinfo, even on a call that fails validation: with an empty host the call
still returns a missing-field error while the url field has been set. -/
theorem configure_mutates_url_on_error (cfg : Config) (old : Option URLv) :
    (Configure true cfg old).url
      = some (sdkURL cfg.host cfg.username cfg.password)
    ∧ (cfg.host = "" → (Configure true cfg old).err ≠ none) := by
  constructor
  · simp [Configure]
  · intro h1
    simp [Configure, h1]

/-- Witness for C9: the concrete configuration with empty host leaves the
url populated while Configure reports an error. -/
theorem configure_mutates_url_on_error_witness :
    (Configure true cfgMissW none).url = some (sdkURL "" "" "pass")
    ∧ (Configure true cfgMissW none).err ≠ none :=
  ⟨(configure_mutates_url_on_error cfgMissW none).1,
    (configure_mutates_url_on_error cfgMissW none).2 rfl⟩

/-- C10: the export-conflict gate compares by exact string equality on the
skip-export value, so every allow-listed artifact whose skip-export
metadata is absent or is any string other than false never receives the
conflict error, and the run proceeds to the settling delay and the
connection attempt. -/
theorem skipExport_exact_match (env : Env) (cfg : Config) (a : Artifact)
    (hb : builtinsHas a.builderId = true)
    (hs : a.state ArtifactConfSkipExport ≠ some "false") :
    (PostProcess env cfg a).err ≠ some GoError.conflictingExport
    ∧ ∃ rest, (PostProcess env cfg a).events
        = Event.sleptSeconds 10 :: Event.connectAttempt :: rest := by
  have hc : ¬ exportGateCond a := fun h => hs h.2.2
  cases he : env.connect with
  | error msg =>
    rw [postProcess_of_connect_error env cfg a msg hb hc he]
    exact ⟨by simp, ⟨[], rfl⟩⟩
  | ok u =>
    cases u
    cases hr : (runSteps env.stepOutcome (mkSteps cfg) 0).snd with
    | none =>
      rw [postProcess_of_success env cfg a hb hc he hr]
      exact ⟨by simp, ⟨(runSteps env.stepOutcome (mkSteps cfg) 0).fst.map
        (fun st => Event.stepStarted (stepName st)) ++ [Event.logout], rfl⟩⟩
    | some msg =>
      rw [postProcess_of_step_error env cfg a msg hb hc he hr]
      exact ⟨by simp, ⟨(runSteps env.stepOutcome (mkSteps cfg) 0).fst.map
        (fun st => Event.stepStarted (stepName st)) ++ [Event.logout], rfl⟩⟩

/-- Witness for C10: a concrete allow-listed artifact with non-empty export
format, absent keep-registered and absent skip-export is not rejected and
proceeds to the delay and connection. -/
theorem skipExport_exact_match_witness :
    (PostProcess envOkW cfgW artSkipAbsentW).err ≠ some GoError.conflictingExport
    ∧ ∃ rest, (PostProcess envOkW cfgW artSkipAbsentW).events
        = Event.sleptSeconds 10 :: Event.connectAttempt :: rest :=
  skipExport_exact_match envOkW cfgW artSkipAbsentW (by decide) (by decide)

end VT
